import Mathlib

/-!
Verification development for the Financial-Stock-Assistant-Chatbot repository.

The Python sources are shallowly embedded:
- `modules/auth_manager.py` (the quota ledger) as pure functions over an
  association-list database;
- `modules/chatbot_model.py` persistence (`save_history` / `load_history`)
  over an abstract per-user file content;
- the turn pipeline of `chatbot.py` (`show_chatbot`, `process_ai_response`,
  `_handle_tool_execution`) as a state-passing function, with the generative
  provider abstracted as an oracle of replies and tool callables as
  functions that may fail (Python exceptions become `Except.error`);
- the alternative orchestration path in `pages/chatbot.py` as `pages_turn`.

Mutation of `st.session_state` and of the on-disk JSON files becomes explicit
state threading; `increment_usage` calls are additionally counted by an
`incCount` instrumentation field so that call discipline is observable.
-/

set_option maxRecDepth 8000

/-! ## Association-list helpers (Python dict access patterns) -/

def alistLookup {α : Type} (l : List (String × α)) (k : String) : Option α :=
  match l with
  | [] => none
  | (k2, v) :: t => if k2 == k then some v else alistLookup t k

def alistSet {α : Type} (l : List (String × α)) (k : String) (v : α) :
    List (String × α) :=
  match l with
  | [] => []
  | (k2, v2) :: t =>
    if k2 == k then (k2, v) :: alistSet t k v else (k2, v2) :: alistSet t k v

/-! ## QuotaLedger: `modules/auth_manager.py` -/

/-- One record of `data/users.json`. Fields read through `.get` with a default
in the source are `Option`-valued here, mirroring possibly-missing JSON keys. -/
structure UserRec where
  password : String
  tier : Option String
  quota_usage : Option Int
  last_reset : Option String
deriving DecidableEq

abbrev DB := List (String × UserRec)

def FREE_DAILY_LIMIT : Int := 5

/-- `check_quota_available` from `modules/auth_manager.py` (lines 75-108).
The loaded database, today's date string, and the username are explicit;
the returned triple is (database as persisted, allowed, status message). -/
def check_quota_available (db : DB) (today : String) (username : String) :
    DB × Bool × String :=
  match alistLookup db username with
  | none => (db, false, "User not found.")
  | some user_data =>
    let tier := user_data.tier.getD "free"
    if tier == "pro" then
      (db, true, "Unlimited Access")
    else
      let last_reset := user_data.last_reset.getD ""
      if last_reset != today then
        let u2 := { user_data with last_reset := some today, quota_usage := some 0 }
        (alistSet db username u2, true,
          "Quota Reset. " ++ toString FREE_DAILY_LIMIT ++ " left.")
      else
        let current_usage := user_data.quota_usage.getD 0
        if current_usage < FREE_DAILY_LIMIT then
          (db, true, "Sisa kuota: " ++ toString (FREE_DAILY_LIMIT - current_usage))
        else
          (db, false, "Kuota harian habis. Upgrade ke PRO untuk akses tanpa batas.")

/-- `increment_usage` from `modules/auth_manager.py` (lines 110-115). -/
def increment_usage (db : DB) (username : String) : DB :=
  match alistLookup db username with
  | none => db
  | some u =>
    alistSet db username { u with quota_usage := some (u.quota_usage.getD 0 + 1) }

/-- `upgrade_to_pro` from `modules/auth_manager.py` (lines 117-122). -/
def upgrade_to_pro (db : DB) (username : String) : DB :=
  match alistLookup db username with
  | none => db
  | some u => alistSet db username { u with tier := some "pro" }

/-- `k` successive `increment_usage` calls for the same user. -/
def iterate_increment (db : DB) (username : String) : Nat → DB
  | 0 => db
  | k + 1 => increment_usage (iterate_increment db username k) username

/-! ## SessionStore: persistence layer of `modules/chatbot_model.py` -/

/-- One chat message as stored in `st.session_state.messages`. The `chart`
key may be absent (`none`), present and null (`some none`), or present and
holding a chart object (`some (some c)`, charts abstracted as `Nat` ids). -/
structure Msg where
  role : String
  content : String
  chart : Option (Option Nat)
deriving DecidableEq

/-- Content of the per-user history file `data/chat_history_<user>.json`. -/
inductive FileContent where
  | missing
  | corrupt
  | stored (msgs : List Msg)
deriving DecidableEq

/-- The chart-stripping step of `save_history` (`modules/chatbot_model.py`
lines 208-213): a present `chart` key is overwritten with null. -/
def stripChart (m : Msg) : Msg :=
  { m with chart := m.chart.map (fun _ => none) }

/-- `save_history` from `modules/chatbot_model.py` (lines 198-218), success
path: the file is replaced by the serialisable copy of the messages. -/
def save_history (messages : List Msg) : FileContent :=
  FileContent.stored (messages.map stripChart)

/-- `load_history` from `modules/chatbot_model.py` (lines 182-196): an
absent or unparsable file yields the empty list. -/
def load_history : FileContent → List Msg
  | FileContent.missing => []
  | FileContent.corrupt => []
  | FileContent.stored l => l

/-! ## ToolRegistry argument values and the window coercion -/

/-- A tool-call argument value as received from the provider: the model may
send numbers as text. (Our claims only need string and integer payloads.) -/
inductive PyVal where
  | pstr (s : String)
  | pint (n : Int)
deriving DecidableEq

/-- Decimal-digit accumulator for `str_to_int`. -/
def digits_to_nat (l : List Char) (acc : Nat) : Option Nat :=
  match l with
  | [] => some acc
  | c :: cs =>
    if 48 ≤ c.toNat ∧ c.toNat ≤ 57 then
      digits_to_nat cs (acc * 10 + (c.toNat - 48))
    else none

/-- Python `int(s)` on a string: an optional leading minus sign followed by
at least one decimal digit; anything else raises `ValueError` (`none`). -/
def str_to_int (s : String) : Option Int :=
  match s.data with
  | [] => none
  | c :: cs =>
    if c == '-' then
      match cs with
      | [] => none
      | _ => (digits_to_nat cs 0).map (fun n => -(n : Int))
    else (digits_to_nat (c :: cs) 0).map (fun n => (n : Int))

/-- Python `int(x)` on an argument value: integers pass through, strings are
parsed; an unparsable string raises `ValueError`, here `none`. -/
def int_of_pyval : PyVal → Option Int
  | PyVal.pint n => some n
  | PyVal.pstr s => str_to_int s

/-- The argument-cleaning step shared by `chatbot.py` line 131-132 and
`pages/chatbot.py` line 266-267: an argument literally named "window" is
replaced by `int(...)` of itself; `none` models the raised `ValueError`. -/
def coerce_window (args : List (String × PyVal)) :
    Option (List (String × PyVal)) :=
  match alistLookup args "window" with
  | none => some args
  | some v =>
    match int_of_pyval v with
    | none => none
    | some n => some (alistSet args "window" (PyVal.pint n))

/-- A registered tool callable: it receives the coerced arguments and either
returns its report text together with an optional chart written into the
`last_chart` session slot, or raises (`Except.error` carries `str(e)`). -/
def Tool : Type := List (String × PyVal) → Except String (String × Option Nat)

/-- First reply of the provider to the user prompt: plain text, a pending
function call, or a raised communication error. -/
inductive ProviderReply where
  | ptext (t : String)
  | ptool (name : String) (args : List (String × PyVal))
  | perr (e : String)
deriving DecidableEq

/-- The provider oracle for one turn: the reply to the prompt and the
outcome of the follow-up `send_message` carrying the function response. -/
structure Provider where
  firstReply : ProviderReply
  followUp : Except String String

/-- One payload handed to `chat_session.send_message`. -/
inductive SentItem where
  | userPrompt (s : String)
  | funcResp (name : String) (content : String)
deriving DecidableEq

def isFuncRespItem : SentItem → Bool
  | SentItem.funcResp _ _ => true
  | _ => false

/-- Observable session state threaded through the `chatbot.py` pipeline:
`st.session_state.messages`, the `last_chart` slot, the durable history
file, the quota database, plus instrumentation recording every payload
handed to the provider, every tool invocation with its arguments, and the
number of `increment_usage` calls. -/
structure ChatState where
  messages : List Msg
  last_chart : Option Nat
  savedHistory : FileContent
  db : DB
  sent : List SentItem
  invoked : List (String × List (String × PyVal))
  incCount : Nat
deriving DecidableEq

/-- `_handle_tool_execution` from `chatbot.py` (lines 118-160). An absent
registry entry is a silent no-op (the `if tool_name in tools_map` has no
else branch). `some e` in the result is an exception propagating out of the
helper: the coercion `ValueError`, the tool exception, or the follow-up
provider failure. On success the chart slot is read and deleted, and the
assistant message (with chart key) is appended and persisted. -/
def tool_execution (tools : List (String × Tool)) (followUp : Except String String)
    (fcName : String) (fcArgs : List (String × PyVal)) (st : ChatState) :
    ChatState × Option String :=
  match alistLookup tools fcName with
  | none => (st, none)
  | some f =>
    match coerce_window fcArgs with
    | none => (st, some "invalid literal for int() with base 10")
    | some args =>
      let st1 := { st with invoked := st.invoked ++ [(fcName, args)] }
      match f args with
      | Except.error e => (st1, some e)
      | Except.ok (result, wr) =>
        let st2 := { st1 with
          last_chart := match wr with
            | some c => some c
            | none => st1.last_chart,
          sent := st1.sent ++ [SentItem.funcResp fcName result] }
        match followUp with
        | Except.error e => (st2, some e)
        | Except.ok answer =>
          let chart := st2.last_chart
          let st3 := { st2 with last_chart := none }
          let msgs := st3.messages ++ [Msg.mk "assistant" answer (some chart)]
          ({ st3 with messages := msgs, savedHistory := save_history msgs }, none)

/-- `process_ai_response` from `chatbot.py` (lines 91-116), together with
`_handle_text_response` (lines 162-168). The outer `try` is the `match` on
the propagated error: on success `increment_usage` runs once; on any
exception the "Processing Error" banner is reported instead. -/
def process_ai_response (tools : List (String × Tool)) (prov : Provider)
    (user : String) (prompt : String) (st : ChatState) :
    ChatState × Option String :=
  let st0 := { st with sent := st.sent ++ [SentItem.userPrompt prompt] }
  let r : ChatState × Option String :=
    match prov.firstReply with
    | ProviderReply.perr e => (st0, some e)
    | ProviderReply.ptool name args => tool_execution tools prov.followUp name args st0
    | ProviderReply.ptext t =>
      let msgs := st0.messages ++ [Msg.mk "assistant" t none]
      ({ st0 with messages := msgs, savedHistory := save_history msgs }, none)
  match r.2 with
  | some e => (r.1, some ("Processing Error: " ++ e))
  | none =>
    ({ r.1 with db := increment_usage r.1.db user, incCount := r.1.incCount + 1 },
     none)

/-- The interaction part of `show_chatbot` from `chatbot.py` (lines 23-89):
authentication gate, quota check, input gating, the pre-consumption quota
re-check, durable save of the user message, then `process_ai_response`.
History loading and session initialisation (steps 4-6) carry no claim here
and are omitted. -/
def show_chatbot (tools : List (String × Tool)) (prov : Provider)
    (today : String) (logged_in : Bool) (userOpt : Option String)
    (promptOpt : Option String) (st : ChatState) : ChatState × Option String :=
  match userOpt with
  | none => (st, some "Access Denied")
  | some user =>
    if logged_in then
      let c1 := check_quota_available st.db today user
      let st1 := { st with db := c1.1 }
      if c1.2.1 then
        match promptOpt with
        | none => (st1, none)
        | some prompt =>
          let c2 := check_quota_available st1.db today user
          let st2 := { st1 with db := c2.1 }
          if c2.2.1 then
            let msgs := st2.messages ++ [Msg.mk "user" prompt none]
            let st3 := { st2 with messages := msgs, savedHistory := save_history msgs }
            process_ai_response tools prov user prompt st3
          else (st2, some "Quota limit reached just now.")
      else (st1, none)
    else (st, some "Access Denied")

/-! ## The alternative orchestration path: `pages/chatbot.py` -/

/-- Session state of `pages/chatbot.py`: UI messages, the `last_chart`
slot, the SQLite `chat_logs` rows, and the same provider/invocation
instrumentation. -/
structure PagesState where
  messages : List Msg
  last_chart : Option Nat
  chatLog : List (String × String)
  sent : List SentItem
  invoked : List (String × List (String × PyVal))
deriving DecidableEq

/-- Outcome of one `pages/chatbot.py` turn: normal completion, the
unknown-function warning, or the outer `except` banner. -/
inductive PagesOutcome where
  | done
  | unknownFn (name : String)
  | sysError (e : String)
deriving DecidableEq

/-- The input-handler block of `show_chatbot` in `pages/chatbot.py`
(lines 240-333). The user message is logged first; window coercion happens
before the registry lookup; an unregistered tool yields only a warning; a
tool or follow-up exception is caught by the inner `except` and appended as
an error-text assistant message; the chart slot is read only for
`plot_interactive_chart` and never cleared. -/
def pages_turn (funcs : List (String × Tool)) (prov : Provider)
    (prompt : String) (st : PagesState) : PagesState × PagesOutcome :=
  let stA := { st with
    messages := st.messages ++ [Msg.mk "user" prompt (some none)],
    chatLog := st.chatLog ++ [("user", prompt)] }
  let stB := { stA with sent := stA.sent ++ [SentItem.userPrompt prompt] }
  match prov.firstReply with
  | ProviderReply.perr e => (stB, PagesOutcome.sysError ("System Error: " ++ e))
  | ProviderReply.ptext t =>
    ({ stB with
        messages := stB.messages ++ [Msg.mk "assistant" t (some none)],
        chatLog := stB.chatLog ++ [("model", t)] }, PagesOutcome.done)
  | ProviderReply.ptool name args =>
    match coerce_window args with
    | none =>
      (stB, PagesOutcome.sysError "System Error: invalid literal for int() with base 10")
    | some args2 =>
      match alistLookup funcs name with
      | none => (stB, PagesOutcome.unknownFn name)
      | some f =>
        let stC := { stB with invoked := stB.invoked ++ [(name, args2)] }
        match f args2 with
        | Except.error e =>
          let m := "Error saat eksekusi " ++ name ++ ": " ++ e
          ({ stC with
              messages := stC.messages ++ [Msg.mk "assistant" m (some none)],
              chatLog := stC.chatLog ++ [("model", m)] }, PagesOutcome.done)
        | Except.ok (result, wr) =>
          let stD := { stC with
            last_chart := match wr with
              | some c => some c
              | none => stC.last_chart,
            sent := stC.sent ++ [SentItem.funcResp name result] }
          match prov.followUp with
          | Except.error e =>
            let m := "Error saat eksekusi " ++ name ++ ": " ++ e
            ({ stD with
                messages := stD.messages ++ [Msg.mk "assistant" m (some none)],
                chatLog := stD.chatLog ++ [("model", m)] }, PagesOutcome.done)
          | Except.ok answer =>
            let cc : Option Nat :=
              if name == "plot_interactive_chart" then stD.last_chart else none
            ({ stD with
                messages := stD.messages ++ [Msg.mk "assistant" answer (some cc)],
                chatLog := stD.chatLog ++ [("model", answer)] }, PagesOutcome.done)

/-! ## Concrete fixtures for witnesses and counterexamples -/

/-- A registered tool that returns a plain report and writes no chart. -/
def dummy_price_tool : Tool := fun _ => Except.ok ("42.0", none)

/-- A registered tool whose execution raises (`str(e)` = "boom"). -/
def failing_tool : Tool := fun _ => Except.error "boom"

/-- A registered tool that succeeds and writes chart 7 into `last_chart`,
as `plot_interactive_chart` does on success. -/
def plotting_tool : Tool :=
  fun _ => Except.ok ("Chart generated successfully for BBCA.", some 7)

def dbAlice : DB :=
  [("alice", UserRec.mk "h" (some "free") (some 0) (some "2026-10-12"))]

def dbBobExhausted : DB :=
  [("bob", UserRec.mk "h" (some "free") (some 5) (some "2026-10-12"))]

def chatSt0 : ChatState := ChatState.mk [] none FileContent.missing dbAlice [] [] 0

def chatStBob : ChatState :=
  ChatState.mk [] none FileContent.missing dbBobExhausted [] [] 0

def pagesSt0 : PagesState := PagesState.mk [] none [] [] []

def tools_chart : List (String × Tool) :=
  [("plot_interactive_chart", plotting_tool), ("get_stock_price", dummy_price_tool)]

def prov_plot_then_fail : Provider :=
  Provider.mk (ProviderReply.ptool "plot_interactive_chart" [("ticker", PyVal.pstr "BBCA")])
    (Except.error "network down")

def prov_price_ok : Provider :=
  Provider.mk (ProviderReply.ptool "get_stock_price" [("ticker", PyVal.pstr "BBCA")])
    (Except.ok "harga 42")

/-! ## Portfolio context injection (ConversationSession.SendTurn step 1) -/

def listContainsSub {α : Type} [BEq α] (l pat : List α) : Bool :=
  match l with
  | [] => pat.isEmpty
  | _ :: t => pat.isPrefixOf l || listContainsSub t pat

/-- ASCII lowercasing of one character (Python `str.lower` on the ASCII
range, which covers the keyword set). -/
def lowerChar (c : Char) : Char :=
  if 65 ≤ c.toNat ∧ c.toNat ≤ 90 then Char.ofNat (c.toNat + 32) else c

def lowerStr (s : String) : String := String.mk (s.data.map lowerChar)

/-- Modelled from the spec: the fixed set of portfolio-related keywords of
`SendTurn` step 1. The keyword matching and prompt rewriting are not
present under `src/`; only the collaborator that supplies the valuation
context string (`get_portfolio_context` in `modules/chatbot_model.py`) is. -/
def portfolio_keywords : List String := ["portofolio", "portfolio", "porto"]

/-- Modelled from the spec: a prompt matches when it contains one of the
fixed portfolio-related keywords (case-insensitively). -/
def matches_portfolio_keywords (prompt : String) : Bool :=
  portfolio_keywords.any (fun k => listContainsSub (lowerStr prompt).data k.data)

/-- Modelled from the spec: the fixed formatting instructions prepended
together with the valuation context. -/
def PORTFOLIO_FORMAT_INSTRUCTIONS : String :=
  "\n\nJawab pertanyaan user berikut berdasarkan konteks portofolio di atas:\n"

/-- Modelled from the spec: `SendTurn` step 1 — if the prompt matches the
fixed keyword set, the read-only valuation context string fetched from the
collaborator is prepended to the prompt along with the fixed formatting
instructions, preserving the original prompt verbatim afterward; otherwise
the prompt is left unchanged. -/
def rewrite_prompt_with_portfolio_context (ctx prompt : String) : String :=
  if matches_portfolio_keywords prompt then
    ctx ++ (PORTFOLIO_FORMAT_INSTRUCTIONS ++ prompt)
  else prompt

theorem alistLookup_set_self {α : Type} (l : List (String × α)) (k : String)
    (u v : α) (h : alistLookup l k = some u) :
    alistLookup (alistSet l k v) k = some v := by
  induction l with
  | nil => simp [alistLookup] at h
  | cons hd tl ih =>
    obtain ⟨k2, v2⟩ := hd
    by_cases hk : (k2 == k) = true
    · simp [alistSet, alistLookup, hk]
    · have h' : alistLookup tl k = some u := by
        simpa [alistLookup, hk] using h
      simpa [alistSet, alistLookup, hk] using ih h'

theorem lookup_iterate_increment (db : DB) (username : String) (u : UserRec)
    (q : Int) (hu : alistLookup db username = some u)
    (hq : u.quota_usage = some q) :
    ∀ k : Nat, alistLookup (iterate_increment db username k) username
      = some { u with quota_usage := some (q + k) } := by
  intro k
  induction k with
  | zero =>
    simp [iterate_increment, hu]
    cases u
    simp_all
  | succ k ih =>
    show alistLookup (increment_usage (iterate_increment db username k) username)
        username = _
    rw [increment_usage, ih]
    simp only
    rw [alistLookup_set_self _ _ _ _ ih]
    congr 2
    simp
    ring

theorem check_quota_denied_db_unchanged (db : DB) (today username : String)
    (h : (check_quota_available db today username).2.1 = false) :
    (check_quota_available db today username).1 = db := by
  cases halu : alistLookup db username with
  | none => simp [check_quota_available, halu]
  | some u =>
    by_cases c1 : (u.tier.getD "free" == "pro") = true
    · simp [check_quota_available, halu, c1]
    · by_cases c2 : (u.last_reset.getD "" != today) = true
      · exfalso
        unfold check_quota_available at h
        rw [halu] at h
        simp [c1, c2] at h
      · by_cases c3 : u.quota_usage.getD 0 < FREE_DAILY_LIMIT
        · simp [check_quota_available, halu, c1, c2, c3]
        · simp [check_quota_available, halu, c1, c2, c3]

/-- Claim C1: for a free-tier user whose last reset is today,
`check_quota_available` allows with the remaining count while usage is
strictly below the daily cap of 5 and denies with the fixed exhaustion
message once usage has reached the cap — in particular after exactly 5
`increment_usage` calls starting from usage 0 — while a pro-tier user is
always allowed. -/
theorem C1_quota_cap_behavior (db : DB) (today username : String) (u : UserRec)
    (hu : alistLookup db username = some u) :
    (u.tier.getD "free" = "free" → u.last_reset.getD "" = today →
      ((u.quota_usage.getD 0 < FREE_DAILY_LIMIT →
          check_quota_available db today username
            = (db, true, "Sisa kuota: " ++ toString (FREE_DAILY_LIMIT - u.quota_usage.getD 0)))
        ∧ (FREE_DAILY_LIMIT ≤ u.quota_usage.getD 0 →
          check_quota_available db today username
            = (db, false, "Kuota harian habis. Upgrade ke PRO untuk akses tanpa batas."))
        ∧ (u.quota_usage = some 0 →
          (check_quota_available (iterate_increment db username 5) today username).2.1
            = false)))
    ∧ (u.tier.getD "free" = "pro" →
        check_quota_available db today username = (db, true, "Unlimited Access")) := by
  constructor
  · intro htier hday
    refine ⟨?_, ?_, ?_⟩
    · intro hlt
      unfold check_quota_available
      rw [hu]
      simp [htier, hday, hlt]
    · intro hge
      unfold check_quota_available
      rw [hu]
      simp [htier, hday]
      omega
    · intro hq0
      have h5 := lookup_iterate_increment db username u 0 hu hq0 5
      unfold check_quota_available
      rw [h5]
      simp [htier, hday, FREE_DAILY_LIMIT]
  · intro hpro
    unfold check_quota_available
    rw [hu]
    simp [hpro]

theorem C1_quota_cap_behavior_witness :
    (check_quota_available
        [("alice", UserRec.mk "h" (some "free") (some 3) (some "2026-10-12")),
         ("bob", UserRec.mk "h" (some "pro") (some 99) (some "2026-10-12"))]
        "2026-10-12" "alice").2.1 = true
    ∧ (check_quota_available
        (iterate_increment
          [("carol", UserRec.mk "h" (some "free") (some 0) (some "2026-10-12"))]
          "carol" 5)
        "2026-10-12" "carol").2.1 = false
    ∧ (check_quota_available
        [("alice", UserRec.mk "h" (some "free") (some 3) (some "2026-10-12")),
         ("bob", UserRec.mk "h" (some "pro") (some 99) (some "2026-10-12"))]
        "2026-10-12" "bob").2.1 = true := by
  refine ⟨?_, ?_, ?_⟩
  · have h := ((C1_quota_cap_behavior
      [("alice", UserRec.mk "h" (some "free") (some 3) (some "2026-10-12")),
       ("bob", UserRec.mk "h" (some "pro") (some 99) (some "2026-10-12"))]
      "2026-10-12" "alice"
      (UserRec.mk "h" (some "free") (some 3) (some "2026-10-12")) (by decide)).1
      (by decide) (by decide)).1 (by decide)
    rw [h]
  · exact ((C1_quota_cap_behavior
      [("carol", UserRec.mk "h" (some "free") (some 0) (some "2026-10-12"))]
      "2026-10-12" "carol"
      (UserRec.mk "h" (some "free") (some 0) (some "2026-10-12")) (by decide)).1
      (by decide) (by decide)).2.2 (by decide)
  · have h := (C1_quota_cap_behavior
      [("alice", UserRec.mk "h" (some "free") (some 3) (some "2026-10-12")),
       ("bob", UserRec.mk "h" (some "pro") (some 99) (some "2026-10-12"))]
      "2026-10-12" "bob"
      (UserRec.mk "h" (some "pro") (some 99) (some "2026-10-12")) (by decide)).2
      (by decide)
    rw [h]

/-- Claim C2: for a free-tier user whose stored last reset differs from
today, `check_quota_available` persists a record with usage 0 and last
reset set to today and returns allowed with the reset status, whatever the
previous usage was. -/
theorem C2_day_rollover (db : DB) (today username : String) (u : UserRec)
    (hu : alistLookup db username = some u)
    (ht : u.tier.getD "free" = "free")
    (hr : u.last_reset.getD "" ≠ today) :
    check_quota_available db today username
      = (alistSet db username { u with last_reset := some today, quota_usage := some 0 },
         true, "Quota Reset. " ++ toString FREE_DAILY_LIMIT ++ " left.")
    ∧ alistLookup (check_quota_available db today username).1 username
      = some { u with last_reset := some today, quota_usage := some 0 } := by
  have heq : check_quota_available db today username
      = (alistSet db username { u with last_reset := some today, quota_usage := some 0 },
         true, "Quota Reset. " ++ toString FREE_DAILY_LIMIT ++ " left.") := by
    unfold check_quota_available
    rw [hu]
    simp [ht, hr]
  refine ⟨heq, ?_⟩
  rw [heq]
  exact alistLookup_set_self db username u _ hu

theorem C2_day_rollover_witness :
    check_quota_available
        [("alice", UserRec.mk "h" (some "free") (some 4) (some "2026-10-11"))]
        "2026-10-12" "alice"
      = ([("alice", UserRec.mk "h" (some "free") (some 0) (some "2026-10-12"))],
         true, "Quota Reset. 5 left.") := by
  have h := (C2_day_rollover
    [("alice", UserRec.mk "h" (some "free") (some 4) (some "2026-10-11"))]
    "2026-10-12" "alice"
    (UserRec.mk "h" (some "free") (some 4) (some "2026-10-11"))
    rfl (by decide) (by decide)).1
  rw [h]
  rfl

/-- Claim C10: `increment_usage` and `upgrade_to_pro` on a username that is
absent from the ledger return normally and leave the database unchanged. -/
theorem C10_missing_user_noop (db : DB) (username : String)
    (h : alistLookup db username = none) :
    increment_usage db username = db ∧ upgrade_to_pro db username = db := by
  constructor
  · unfold increment_usage
    rw [h]
  · unfold upgrade_to_pro
    rw [h]

theorem C10_missing_user_noop_witness :
    increment_usage
        [("alice", UserRec.mk "h" (some "free") (some 3) (some "2026-10-12"))]
        "ghost"
      = [("alice", UserRec.mk "h" (some "free") (some 3) (some "2026-10-12"))]
    ∧ upgrade_to_pro
        [("alice", UserRec.mk "h" (some "free") (some 3) (some "2026-10-12"))]
        "ghost"
      = [("alice", UserRec.mk "h" (some "free") (some 3) (some "2026-10-12"))] :=
  C10_missing_user_noop
    [("alice", UserRec.mk "h" (some "free") (some 3) (some "2026-10-12"))]
    "ghost" (by decide)

/-- Claim C9: `save_history` then `load_history` preserves the ordered
role/content projection, every chart field in the stored file is absent or
null, and `load_history` returns the empty list on missing or corrupt
storage. -/
theorem C9_history_round_trip (m : List Msg) :
    (load_history (save_history m)).map (fun x => (x.role, x.content))
      = m.map (fun x => (x.role, x.content))
    ∧ ((load_history (save_history m)).all
        (fun x => x.chart == none || x.chart == some none)) = true
    ∧ load_history FileContent.missing = []
    ∧ load_history FileContent.corrupt = [] := by
  refine ⟨?_, ?_, rfl, rfl⟩
  · induction m with
    | nil => rfl
    | cons hd tl ih =>
      simp [load_history, save_history, stripChart]
  · induction m with
    | nil => rfl
    | cons hd tl ih =>
      simp [load_history, save_history, stripChart] at ih ⊢
      refine ⟨?_, ih⟩
      cases hd.chart <;> simp

/-! ## Pipeline lemmas -/

theorem tool_execution_incCount (tools : List (String × Tool))
    (fu : Except String String) (name : String) (args : List (String × PyVal))
    (st : ChatState) :
    (tool_execution tools fu name args st).1.incCount = st.incCount := by
  unfold tool_execution
  repeat' split
  all_goals rfl

theorem tool_execution_invoked_of (tools : List (String × Tool))
    (fu : Except String String) (name : String) (args args2 : List (String × PyVal))
    (st : ChatState) (f : Tool)
    (hl : alistLookup tools name = some f) (hc : coerce_window args = some args2) :
    (tool_execution tools fu name args st).1.invoked
      = st.invoked ++ [(name, args2)] := by
  unfold tool_execution
  simp only [hl, hc]
  repeat' split
  all_goals rfl

/-- With both quota gates open, one turn of the controller is the durable
save of the user message followed by `process_ai_response`. -/
theorem show_chatbot_allowed_eq (tools : List (String × Tool)) (prov : Provider)
    (today user prompt : String) (st : ChatState)
    (h1 : (check_quota_available st.db today user).2.1 = true)
    (h2 : (check_quota_available (check_quota_available st.db today user).1
            today user).2.1 = true) :
    show_chatbot tools prov today true (some user) (some prompt) st
      = process_ai_response tools prov user prompt
          { st with
            db := (check_quota_available (check_quota_available st.db today user).1
                    today user).1,
            messages := st.messages ++ [Msg.mk "user" prompt none],
            savedHistory := save_history (st.messages ++ [Msg.mk "user" prompt none]) } := by
  unfold show_chatbot
  simp only [h1, h2, if_true]

/-- Claim C6: when the provider call of a turn fails — on the first send or
on the tool-result follow-up — the turn aborts with a reported processing
error, the already persisted user message is retained, and no assistant
message is appended or persisted. -/
theorem C6_provider_failure_durability (tools : List (String × Tool))
    (prov : Provider) (today user prompt e : String) (st : ChatState)
    (h1 : (check_quota_available st.db today user).2.1 = true)
    (h2 : (check_quota_available (check_quota_available st.db today user).1
            today user).2.1 = true) :
    (prov.firstReply = ProviderReply.perr e →
      ((show_chatbot tools prov today true (some user) (some prompt) st).2
          = some ("Processing Error: " ++ e)
        ∧ (show_chatbot tools prov today true (some user) (some prompt) st).1.messages
          = st.messages ++ [Msg.mk "user" prompt none]
        ∧ (show_chatbot tools prov today true (some user) (some prompt) st).1.savedHistory
          = save_history (st.messages ++ [Msg.mk "user" prompt none])
        ∧ (show_chatbot tools prov today true (some user) (some prompt) st).1.messages.filter
            (fun m => m.role == "assistant")
          = st.messages.filter (fun m => m.role == "assistant")))
    ∧ (∀ name args f args2 res wr,
        prov.firstReply = ProviderReply.ptool name args →
        alistLookup tools name = some f →
        coerce_window args = some args2 →
        f args2 = Except.ok (res, wr) →
        prov.followUp = Except.error e →
        ((show_chatbot tools prov today true (some user) (some prompt) st).2
            = some ("Processing Error: " ++ e)
          ∧ (show_chatbot tools prov today true (some user) (some prompt) st).1.messages
            = st.messages ++ [Msg.mk "user" prompt none]
          ∧ (show_chatbot tools prov today true (some user) (some prompt) st).1.savedHistory
            = save_history (st.messages ++ [Msg.mk "user" prompt none])
          ∧ (show_chatbot tools prov today true (some user) (some prompt) st).1.messages.filter
              (fun m => m.role == "assistant")
            = st.messages.filter (fun m => m.role == "assistant"))) := by
  rw [show_chatbot_allowed_eq tools prov today user prompt st h1 h2]
  constructor
  · intro hfr
    unfold process_ai_response
    simp only [hfr]
    simp [List.filter_append]
  · intro name args f args2 res wr hfr hl hc hok hfu
    unfold process_ai_response
    simp only [hfr]
    unfold tool_execution
    simp only [hl, hc, hok, hfu]
    simp [List.filter_append]

theorem C6_provider_failure_durability_witness :
    ((show_chatbot []
        (Provider.mk (ProviderReply.perr "network down") (Except.ok "x"))
        "2026-10-12" true (some "alice") (some "hi")
        (ChatState.mk [] none FileContent.missing
          [("alice", UserRec.mk "h" (some "free") (some 0) (some "2026-10-12"))]
          [] [] 0)).2
      = some ("Processing Error: " ++ "network down"))
    ∧ ((show_chatbot []
        (Provider.mk (ProviderReply.perr "network down") (Except.ok "x"))
        "2026-10-12" true (some "alice") (some "hi")
        (ChatState.mk [] none FileContent.missing
          [("alice", UserRec.mk "h" (some "free") (some 0) (some "2026-10-12"))]
          [] [] 0)).1.messages
      = [] ++ [Msg.mk "user" "hi" none]) := by
  have h := (C6_provider_failure_durability []
    (Provider.mk (ProviderReply.perr "network down") (Except.ok "x"))
    "2026-10-12" "alice" "hi" "network down"
    (ChatState.mk [] none FileContent.missing
      [("alice", UserRec.mk "h" (some "free") (some 0) (some "2026-10-12"))]
      [] [] 0)
    (by decide) (by decide)).1 rfl
  exact ⟨h.1, h.2.1⟩

theorem process_ai_response_incCount (tools : List (String × Tool))
    (prov : Provider) (user prompt : String) (st : ChatState) :
    ((process_ai_response tools prov user prompt st).2 = none →
      (process_ai_response tools prov user prompt st).1.incCount = st.incCount + 1)
    ∧ ((process_ai_response tools prov user prompt st).2 ≠ none →
      (process_ai_response tools prov user prompt st).1.incCount = st.incCount) := by
  unfold process_ai_response
  cases hfr : prov.firstReply with
  | perr e => simp
  | ptext t => simp
  | ptool name args =>
    have h := tool_execution_incCount tools prov.followUp name args
      { st with sent := st.sent ++ [SentItem.userPrompt prompt] }
    rcases hte : tool_execution tools prov.followUp name args
      { st with sent := st.sent ++ [SentItem.userPrompt prompt] } with ⟨st2, err⟩
    rw [hte] at h
    simp at h
    simp only [hte]
    cases err with
    | none => simp [h]
    | some e => simp [h]

/-- Claim C7: quota accounting discipline of the controller. A missing or
unauthenticated identity denies without touching the ledger or the
provider; a denied quota check leaves the whole state untouched and never
reaches the provider; a raising provider call yields no usage increment —
as does every erroring turn — and an error-free processed turn increments
usage exactly once. -/
theorem C7_increment_discipline (tools : List (String × Tool)) (prov : Provider)
    (today : String) (st : ChatState) :
    (∀ logged : Bool, ∀ promptOpt : Option String,
      show_chatbot tools prov today logged none promptOpt st
        = (st, some "Access Denied"))
    ∧ (∀ user : String, ∀ promptOpt : Option String,
      show_chatbot tools prov today false (some user) promptOpt st
        = (st, some "Access Denied"))
    ∧ (∀ user : String, ∀ promptOpt : Option String,
      (check_quota_available st.db today user).2.1 = false →
      show_chatbot tools prov today true (some user) promptOpt st = (st, none))
    ∧ (∀ user prompt e : String, prov.firstReply = ProviderReply.perr e →
      (show_chatbot tools prov today true (some user) (some prompt) st).1.incCount
        = st.incCount)
    ∧ (∀ user : String, ∀ promptOpt : Option String,
      ((show_chatbot tools prov today true (some user) promptOpt st).2).isSome = true →
      (show_chatbot tools prov today true (some user) promptOpt st).1.incCount
        = st.incCount)
    ∧ (∀ user prompt : String,
      (check_quota_available st.db today user).2.1 = true →
      (show_chatbot tools prov today true (some user) (some prompt) st).2 = none →
      (show_chatbot tools prov today true (some user) (some prompt) st).1.incCount
        = st.incCount + 1) := by
  refine ⟨?_, ?_, ?_, ?_, ?_, ?_⟩
  · intro logged promptOpt
    rfl
  · intro user promptOpt
    rfl
  · intro user promptOpt hden
    have hdb := check_quota_denied_db_unchanged st.db today user hden
    unfold show_chatbot
    simp [hden, hdb]
  · intro user prompt e hfr
    cases hc1 : (check_quota_available st.db today user).2.1 with
    | false =>
      unfold show_chatbot
      simp [hc1]
    | true =>
      cases hc2 : (check_quota_available (check_quota_available st.db today user).1
          today user).2.1 with
      | false =>
        unfold show_chatbot
        simp [hc1, hc2]
      | true =>
        rw [show_chatbot_allowed_eq tools prov today user prompt st hc1 hc2]
        unfold process_ai_response
        simp [hfr]
  · intro user promptOpt hsome
    cases hc1 : (check_quota_available st.db today user).2.1 with
    | false =>
      unfold show_chatbot at hsome
      simp [hc1] at hsome
    | true =>
      cases promptOpt with
      | none =>
        unfold show_chatbot at hsome
        simp [hc1] at hsome
      | some prompt =>
        cases hc2 : (check_quota_available (check_quota_available st.db today user).1
            today user).2.1 with
        | false =>
          unfold show_chatbot
          simp [hc1, hc2]
        | true =>
          rw [show_chatbot_allowed_eq tools prov today user prompt st hc1 hc2] at hsome ⊢
          have hne : (process_ai_response tools prov user prompt
              { st with
                db := (check_quota_available (check_quota_available st.db today user).1
                        today user).1,
                messages := st.messages ++ [Msg.mk "user" prompt none],
                savedHistory := save_history (st.messages ++ [Msg.mk "user" prompt none]) }).2
              ≠ none := by
            intro hx
            rw [hx] at hsome
            simp at hsome
          exact (process_ai_response_incCount tools prov user prompt _).2 hne
  · intro user prompt hc1 hnone
    cases hc2 : (check_quota_available (check_quota_available st.db today user).1
        today user).2.1 with
    | false =>
      unfold show_chatbot at hnone
      simp [hc1, hc2] at hnone
    | true =>
      rw [show_chatbot_allowed_eq tools prov today user prompt st hc1 hc2] at hnone ⊢
      exact (process_ai_response_incCount tools prov user prompt _).1 hnone

theorem C7_increment_discipline_witness :
    show_chatbot [] (Provider.mk (ProviderReply.ptext "halo") (Except.ok "x"))
        "2026-10-12" true none none chatSt0 = (chatSt0, some "Access Denied")
    ∧ show_chatbot [] (Provider.mk (ProviderReply.ptext "halo") (Except.ok "x"))
        "2026-10-12" true (some "bob") (some "hi") chatStBob = (chatStBob, none)
    ∧ (show_chatbot [] (Provider.mk (ProviderReply.perr "down") (Except.ok "x"))
        "2026-10-12" true (some "alice") (some "hi") chatSt0).1.incCount
      = chatSt0.incCount
    ∧ (show_chatbot [] (Provider.mk (ProviderReply.ptext "halo") (Except.ok "x"))
        "2026-10-12" true (some "alice") (some "hi") chatSt0).1.incCount
      = chatSt0.incCount + 1 := by
  refine ⟨?_, ?_, ?_, ?_⟩
  · exact (C7_increment_discipline [] _ "2026-10-12" chatSt0).1 true none
  · exact (C7_increment_discipline [] _ "2026-10-12" chatStBob).2.2.1 "bob"
      (some "hi") (by decide)
  · exact (C7_increment_discipline [] _ "2026-10-12" chatSt0).2.2.2.1 "alice" "hi"
      "down" rfl
  · exact (C7_increment_discipline [] _ "2026-10-12" chatSt0).2.2.2.2.2 "alice" "hi"
      (by decide) (by decide)

theorem pages_turn_invoked_of (funcs : List (String × Tool)) (prov : Provider)
    (prompt name : String) (args args2 : List (String × PyVal)) (st : PagesState)
    (f : Tool)
    (hfr : prov.firstReply = ProviderReply.ptool name args)
    (hc : coerce_window args = some args2)
    (hl : alistLookup funcs name = some f) :
    (pages_turn funcs prov prompt st).1.invoked = st.invoked ++ [(name, args2)] := by
  unfold pages_turn
  simp only [hfr, hc, hl]
  repeat' split
  all_goals rfl

/-- Claim C4 counterexample: in the MVC controller a pending call naming the
unregistered tool "ghost_tool" produces no error result at all — the
dispatch helper silently does nothing, the turn reports success, and usage
is still incremented — contradicting the claimed `UnknownTool` failure. -/
theorem C4_counterexample :
    show_chatbot [("get_stock_price", dummy_price_tool)]
        (Provider.mk (ProviderReply.ptool "ghost_tool" []) (Except.ok "x"))
        "2026-10-12" true (some "alice") (some "hi") chatSt0
      = (ChatState.mk [Msg.mk "user" "hi" none] none
          (FileContent.stored [Msg.mk "user" "hi" none])
          [("alice", UserRec.mk "h" (some "free") (some 1) (some "2026-10-12"))]
          [SentItem.userPrompt "hi"] [] 1,
         none) := by
  decide

/-- Claim C4 as amended: a pending call naming a registered tool with an
argument literally named "window" holding the string "20" invokes the tool
with that argument coerced to integer 20, in both orchestration paths; a
call naming an unregistered tool propagates no exception in either path,
but only the pages path reports it (as an unimplemented-function warning),
while the MVC dispatch helper silently skips the call. -/
theorem C4_window_coercion_and_unknown_tool :
    (∀ tools : List (String × Tool), ∀ fu : Except String String, ∀ name : String,
     ∀ args : List (String × PyVal), ∀ st : ChatState, ∀ f : Tool,
      alistLookup tools name = some f →
      alistLookup args "window" = some (PyVal.pstr "20") →
      ∃ args2, coerce_window args = some args2
        ∧ alistLookup args2 "window" = some (PyVal.pint 20)
        ∧ (tool_execution tools fu name args st).1.invoked
          = st.invoked ++ [(name, args2)])
    ∧ (∀ tools : List (String × Tool), ∀ fu : Except String String, ∀ name : String,
       ∀ args : List (String × PyVal), ∀ st : ChatState,
      alistLookup tools name = none →
      tool_execution tools fu name args st = (st, none))
    ∧ (∀ funcs : List (String × Tool), ∀ prov : Provider, ∀ prompt name : String,
       ∀ args args2 : List (String × PyVal), ∀ st : PagesState,
      prov.firstReply = ProviderReply.ptool name args →
      coerce_window args = some args2 →
      alistLookup funcs name = none →
      (pages_turn funcs prov prompt st).2 = PagesOutcome.unknownFn name)
    ∧ (∀ funcs : List (String × Tool), ∀ prov : Provider, ∀ prompt name : String,
       ∀ args : List (String × PyVal), ∀ st : PagesState, ∀ f : Tool,
      prov.firstReply = ProviderReply.ptool name args →
      alistLookup args "window" = some (PyVal.pstr "20") →
      alistLookup funcs name = some f →
      ∃ args2, coerce_window args = some args2
        ∧ alistLookup args2 "window" = some (PyVal.pint 20)
        ∧ (pages_turn funcs prov prompt st).1.invoked
          = st.invoked ++ [(name, args2)]) := by
  have hint : int_of_pyval (PyVal.pstr "20") = some 20 := by decide
  refine ⟨?_, ?_, ?_, ?_⟩
  · intro tools fu name args st f hl hw
    have hcw : coerce_window args = some (alistSet args "window" (PyVal.pint 20)) := by
      unfold coerce_window
      simp only [hw, hint]
    exact ⟨alistSet args "window" (PyVal.pint 20), hcw,
      alistLookup_set_self args "window" _ _ hw,
      tool_execution_invoked_of tools fu name args _ st f hl hcw⟩
  · intro tools fu name args st hl
    unfold tool_execution
    simp only [hl]
  · intro funcs prov prompt name args args2 st hfr hc hl
    unfold pages_turn
    simp only [hfr, hc, hl]
  · intro funcs prov prompt name args st f hfr hw hl
    have hcw : coerce_window args = some (alistSet args "window" (PyVal.pint 20)) := by
      unfold coerce_window
      simp only [hw, hint]
    exact ⟨alistSet args "window" (PyVal.pint 20), hcw,
      alistLookup_set_self args "window" _ _ hw,
      pages_turn_invoked_of funcs prov prompt name args _ st f hfr hcw hl⟩

theorem C4_window_coercion_and_unknown_tool_witness :
    (∃ args2,
      coerce_window [("ticker", PyVal.pstr "BBCA"), ("window", PyVal.pstr "20")]
        = some args2
      ∧ alistLookup args2 "window" = some (PyVal.pint 20)
      ∧ (tool_execution [("calculate_SMA", dummy_price_tool)] (Except.ok "x")
          "calculate_SMA" [("ticker", PyVal.pstr "BBCA"), ("window", PyVal.pstr "20")]
          chatSt0).1.invoked
        = chatSt0.invoked ++ [("calculate_SMA", args2)])
    ∧ (pages_turn []
        (Provider.mk (ProviderReply.ptool "ghost_tool" []) (Except.ok "x"))
        "hi" pagesSt0).2 = PagesOutcome.unknownFn "ghost_tool" := by
  constructor
  · exact C4_window_coercion_and_unknown_tool.1
      [("calculate_SMA", dummy_price_tool)] (Except.ok "x") "calculate_SMA"
      [("ticker", PyVal.pstr "BBCA"), ("window", PyVal.pstr "20")] chatSt0
      dummy_price_tool rfl (by decide)
  · exact C4_window_coercion_and_unknown_tool.2.2.1 []
      (Provider.mk (ProviderReply.ptool "ghost_tool" []) (Except.ok "x"))
      "hi" "ghost_tool" [] [] pagesSt0 rfl (by decide) rfl

/-- Claim C5 counterexample: a registered tool that raises ("boom") is not
caught at the dispatch helper — the exception propagates to
`process_ai_response`'s catch-all, the turn aborts with a processing-error
banner, no assistant reply is produced, nothing is round-tripped to the
provider (no function response in the transcript), and no usage is
charged — contradicting "converted to an error-text result and
round-tripped to the provider as the tool's result". -/
theorem C5_counterexample :
    show_chatbot [("failing", failing_tool)]
        (Provider.mk (ProviderReply.ptool "failing" []) (Except.ok "ans"))
        "2026-10-12" true (some "alice") (some "hi") chatSt0
      = (ChatState.mk [Msg.mk "user" "hi" none] none
          (FileContent.stored [Msg.mk "user" "hi" none]) dbAlice
          [SentItem.userPrompt "hi"] [("failing", [])] 0,
         some ("Processing Error: boom")) := by
  decide

/-- Claim C5 as amended: in the MVC controller a tool-execution exception
propagates out of the dispatch helper and is caught only by
`process_ai_response`'s catch-all; the turn aborts with a processing-error
banner, appends no assistant message, round-trips no function response to
the provider, and charges no usage. In the pages path the inner `except`
catches the exception around dispatch and appends it as an error-text
assistant message, also without any provider round trip. In neither path
does the exception escape the turn handler. -/
theorem C5_tool_error_not_round_tripped :
    (∀ tools : List (String × Tool), ∀ prov : Provider,
     ∀ today user prompt : String, ∀ st : ChatState, ∀ name : String,
     ∀ args args2 : List (String × PyVal), ∀ f : Tool, ∀ e : String,
      prov.firstReply = ProviderReply.ptool name args →
      alistLookup tools name = some f →
      coerce_window args = some args2 →
      f args2 = Except.error e →
      (check_quota_available st.db today user).2.1 = true →
      (check_quota_available (check_quota_available st.db today user).1
        today user).2.1 = true →
      ((show_chatbot tools prov today true (some user) (some prompt) st).2
          = some ("Processing Error: " ++ e)
        ∧ (show_chatbot tools prov today true (some user) (some prompt) st).1.messages
          = st.messages ++ [Msg.mk "user" prompt none]
        ∧ (show_chatbot tools prov today true (some user) (some prompt) st).1.sent.filter
            isFuncRespItem
          = st.sent.filter isFuncRespItem
        ∧ (show_chatbot tools prov today true (some user) (some prompt) st).1.incCount
          = st.incCount))
    ∧ (∀ funcs : List (String × Tool), ∀ prov : Provider, ∀ prompt : String,
       ∀ st : PagesState, ∀ name : String, ∀ args args2 : List (String × PyVal),
       ∀ f : Tool, ∀ e : String,
      prov.firstReply = ProviderReply.ptool name args →
      coerce_window args = some args2 →
      alistLookup funcs name = some f →
      f args2 = Except.error e →
      pages_turn funcs prov prompt st
        = ({ st with
              messages := st.messages
                ++ [Msg.mk "user" prompt (some none),
                    Msg.mk "assistant"
                      ("Error saat eksekusi " ++ name ++ ": " ++ e) (some none)],
              chatLog := st.chatLog
                ++ [("user", prompt),
                    ("model", "Error saat eksekusi " ++ name ++ ": " ++ e)],
              sent := st.sent ++ [SentItem.userPrompt prompt],
              invoked := st.invoked ++ [(name, args2)] },
            PagesOutcome.done)) := by
  constructor
  · intro tools prov today user prompt st name args args2 f e hfr hl hc herr hq1 hq2
    rw [show_chatbot_allowed_eq tools prov today user prompt st hq1 hq2]
    unfold process_ai_response
    simp only [hfr]
    unfold tool_execution
    simp only [hl, hc, herr]
    simp [List.filter_append, isFuncRespItem]
  · intro funcs prov prompt st name args args2 f e hfr hc hl herr
    unfold pages_turn
    simp only [hfr, hc, hl, herr]
    simp

theorem C5_tool_error_not_round_tripped_witness :
    ((show_chatbot [("failing", failing_tool)]
        (Provider.mk (ProviderReply.ptool "failing" []) (Except.ok "ans"))
        "2026-10-12" true (some "alice") (some "hi") chatSt0).2
      = some ("Processing Error: " ++ "boom"))
    ∧ (pages_turn [("failing", failing_tool)]
        (Provider.mk (ProviderReply.ptool "failing" []) (Except.ok "ans"))
        "hi" pagesSt0).2 = PagesOutcome.done := by
  constructor
  · exact (C5_tool_error_not_round_tripped.1 [("failing", failing_tool)]
      (Provider.mk (ProviderReply.ptool "failing" []) (Except.ok "ans"))
      "2026-10-12" "alice" "hi" chatSt0 "failing" [] [] failing_tool "boom"
      rfl rfl rfl rfl (by decide) (by decide)).1
  · have h := C5_tool_error_not_round_tripped.2 [("failing", failing_tool)]
      (Provider.mk (ProviderReply.ptool "failing" []) (Except.ok "ans"))
      "hi" pagesSt0 "failing" [] [] failing_tool "boom" rfl rfl rfl rfl
    rw [h]

/-- Claim C8 counterexample: turn 1 runs `plot_interactive_chart`, which
writes chart 7 into the slot, but the follow-up provider call fails, so the
slot is never read or cleared and turn 1 ends with no assistant message;
turn 2 runs a different tool successfully and its assistant message is
persisted carrying chart 7 — a chart produced in one turn attached to the
result of a different, unrelated turn. -/
theorem C8_counterexample :
    (show_chatbot tools_chart prov_plot_then_fail "2026-10-12" true (some "alice")
        (some "plot BBCA") chatSt0).1.last_chart = some 7
    ∧ (show_chatbot tools_chart prov_plot_then_fail "2026-10-12" true (some "alice")
        (some "plot BBCA") chatSt0).1.messages = [Msg.mk "user" "plot BBCA" none]
    ∧ ((show_chatbot tools_chart prov_price_ok "2026-10-12" true (some "alice")
        (some "harga BBCA")
        (show_chatbot tools_chart prov_plot_then_fail "2026-10-12" true (some "alice")
          (some "plot BBCA") chatSt0).1).1.messages.getLast?
      = some (Msg.mk "assistant" "harga 42" (some (some 7)))) := by
  decide

/-- Claim C8 as amended: when the tool round trip completes (the follow-up
provider call succeeds), the MVC controller reads the chart slot, attaches
its content to that turn's assistant message, and clears the slot; but when
the follow-up call fails after the tool wrote the slot, the slot is not
cleared and retains the tool's chart, which can then be attached to a later
turn's tool result (and the pages path never clears the slot at all). -/
theorem C8_chart_slot_cleared_on_success :
    (∀ tools : List (String × Tool), ∀ prov : Provider,
     ∀ today user prompt : String, ∀ st : ChatState, ∀ name : String,
     ∀ args args2 : List (String × PyVal), ∀ f : Tool, ∀ res : String,
     ∀ wr : Option Nat, ∀ answer : String,
      prov.firstReply = ProviderReply.ptool name args →
      alistLookup tools name = some f →
      coerce_window args = some args2 →
      f args2 = Except.ok (res, wr) →
      prov.followUp = Except.ok answer →
      (check_quota_available st.db today user).2.1 = true →
      (check_quota_available (check_quota_available st.db today user).1
        today user).2.1 = true →
      ((show_chatbot tools prov today true (some user) (some prompt) st).1.last_chart
          = none
        ∧ (show_chatbot tools prov today true (some user) (some prompt) st).1.messages.getLast?
          = some (Msg.mk "assistant" answer
              (some (match wr with | some c => some c | none => st.last_chart)))))
    ∧ (∀ tools : List (String × Tool), ∀ prov : Provider,
       ∀ today user prompt : String, ∀ st : ChatState, ∀ name : String,
       ∀ args args2 : List (String × PyVal), ∀ f : Tool, ∀ res : String,
       ∀ wr : Option Nat, ∀ e : String,
      prov.firstReply = ProviderReply.ptool name args →
      alistLookup tools name = some f →
      coerce_window args = some args2 →
      f args2 = Except.ok (res, wr) →
      prov.followUp = Except.error e →
      (check_quota_available st.db today user).2.1 = true →
      (check_quota_available (check_quota_available st.db today user).1
        today user).2.1 = true →
      (show_chatbot tools prov today true (some user) (some prompt) st).1.last_chart
        = (match wr with | some c => some c | none => st.last_chart)) := by
  constructor
  · intro tools prov today user prompt st name args args2 f res wr answer
      hfr hl hc hok hfu hq1 hq2
    rw [show_chatbot_allowed_eq tools prov today user prompt st hq1 hq2]
    unfold process_ai_response
    simp only [hfr]
    unfold tool_execution
    simp only [hl, hc, hok, hfu]
    cases wr with
    | none => simp
    | some c => simp
  · intro tools prov today user prompt st name args args2 f res wr e
      hfr hl hc hok hfu hq1 hq2
    rw [show_chatbot_allowed_eq tools prov today user prompt st hq1 hq2]
    unfold process_ai_response
    simp only [hfr]
    unfold tool_execution
    simp only [hl, hc, hok, hfu]

theorem C8_chart_slot_cleared_on_success_witness :
    ((show_chatbot tools_chart
        (Provider.mk (ProviderReply.ptool "plot_interactive_chart"
          [("ticker", PyVal.pstr "BBCA")]) (Except.ok "ini grafiknya"))
        "2026-10-12" true (some "alice") (some "plot BBCA") chatSt0).1.last_chart
      = none)
    ∧ ((show_chatbot tools_chart
        (Provider.mk (ProviderReply.ptool "plot_interactive_chart"
          [("ticker", PyVal.pstr "BBCA")]) (Except.ok "ini grafiknya"))
        "2026-10-12" true (some "alice") (some "plot BBCA") chatSt0).1.messages.getLast?
      = some (Msg.mk "assistant" "ini grafiknya"
          (some (match (some 7 : Option Nat) with
                 | some c => some c
                 | none => chatSt0.last_chart)))) :=
  C8_chart_slot_cleared_on_success.1 tools_chart
    (Provider.mk (ProviderReply.ptool "plot_interactive_chart"
      [("ticker", PyVal.pstr "BBCA")]) (Except.ok "ini grafiknya"))
    "2026-10-12" "alice" "plot BBCA" chatSt0 "plot_interactive_chart"
    [("ticker", PyVal.pstr "BBCA")] [("ticker", PyVal.pstr "BBCA")] plotting_tool
    "Chart generated successfully for BBCA." (some 7) "ini grafiknya"
    rfl rfl rfl rfl rfl (by decide) (by decide)

/-- Claim C3: for every prompt matching the portfolio keyword set — in
particular "cek portofolio saya" — the provider-bound prompt is the
injected valuation context as its head, followed by the fixed formatting
instructions and the literal original prompt, unmodified; a non-matching
prompt is sent unchanged. -/
theorem C3_portfolio_context_injection (ctx prompt : String) :
    (matches_portfolio_keywords prompt = true →
      rewrite_prompt_with_portfolio_context ctx prompt
        = ctx ++ (PORTFOLIO_FORMAT_INSTRUCTIONS ++ prompt))
    ∧ (matches_portfolio_keywords prompt = false →
      rewrite_prompt_with_portfolio_context ctx prompt = prompt)
    ∧ matches_portfolio_keywords "cek portofolio saya" = true := by
  refine ⟨?_, ?_, ?_⟩
  · intro h
    simp [rewrite_prompt_with_portfolio_context, h]
  · intro h
    simp [rewrite_prompt_with_portfolio_context, h]
  · decide

theorem C3_portfolio_context_injection_witness :
    rewrite_prompt_with_portfolio_context "KONTEKS" "cek portofolio saya"
      = "KONTEKS" ++ (PORTFOLIO_FORMAT_INSTRUCTIONS ++ "cek portofolio saya")
    ∧ rewrite_prompt_with_portfolio_context "KONTEKS" "berapa harga BBCA"
      = "berapa harga BBCA" := by
  constructor
  · exact (C3_portfolio_context_injection "KONTEKS" "cek portofolio saya").1
      (by decide)
  · exact (C3_portfolio_context_injection "KONTEKS" "berapa harga BBCA").2.1
      (by decide)
